import Mathlib

/-!
Shallow embedding of `src/gtk_popup.py` (arcceus/phonecall-popup).

The program keeps a registry `self.calls : dict` from a DBus call path to a
per-call record `{caller_id, state, window, start_time, timer_id}`, driven by
three DBus signal handlers (`on_interfaces_added`, `on_interfaces_removed`,
`on_properties_changed`), a 1-second GLib timer callback (`_update_timer`) and
two button callbacks (`answer_call`, `hangup_call`).

Embedding choices:
* the registry dict is an association list `List (String × CallData)`;
  dict operations are `dget` / `dset` / `dremove` below;
* GTK / GLib / DBus side effects become an explicit `Effect` trace;
* `time.monotonic()` is an explicit `now : Nat` parameter (whole seconds,
  matching the `int(...)` truncation in `_update_timer`);
* GLib timer source ids are produced by a counter `nextTimer` starting at 1
  (GLib source ids are positive, so the Python truthiness test
  `if call["timer_id"]:` is the `Option` test here);
* the remote `Answer()` / `Hangup()` round trip outcome is an input of type
  `Option String` (`none` = success, `some exc` = raised exception),
  mirroring the `try/except` in the source.
-/

namespace PhonePopup

/-- Python dict lookup `d.get(k)` on an association list (first match). -/
def dget (k : String) : List (String × α) → Option α
  | [] => none
  | (k', v) :: rest => if k' = k then some v else dget k rest

/-- Python dict assignment `d[k] = v`: replace the entry when the key is
present, append otherwise. -/
def dset (k : String) (v : α) : List (String × α) → List (String × α)
  | [] => [(k, v)]
  | (k', v') :: rest => if k' = k then (k, v) :: rest else (k', v') :: dset k v rest

/-- Python dict removal `d.pop(k, None)` (the removal part). -/
def dremove (k : String) : List (String × α) → List (String × α)
  | [] => []
  | (k', v') :: rest => if k' = k then dremove k rest else (k', v') :: dremove k rest

/-- One registry entry: the dict
`{"caller_id": ..., "state": ..., "window": ..., "start_time": ..., "timer_id": ...}`
built in `_show_window`.  The window object itself is identified by its call
path, so only its existence is recorded implicitly (window effects carry the
path). -/
structure CallData where
  caller_id : String
  state : String
  start_time : Option Nat
  timer_id : Option Nat
deriving Repr, DecidableEq

/-- Observable side effects of the handlers: GTK window calls, GLib timer
calls, DBus remote calls and `log` output. -/
inductive Effect where
  | windowCreate (path : String) (callerText : String)
  | windowPresent (path : String)
  | windowShowIncoming (path : String)
  | windowShowActive (path : String)
  | windowSetTimerLabel (path : String) (text : String)
  | windowDestroy (path : String)
  | sourceRemove (id : Nat)
  | timeoutAddSeconds (interval : Nat) (id : Nat)
  | callAnswer (path : String)
  | callHangup (path : String)
  | logMsg (msg : String)
deriving Repr, DecidableEq

/-- `PopupApp` state: the `self.calls` dict plus the generator for fresh GLib
source ids. -/
structure AppState where
  calls : List (String × CallData)
  nextTimer : Nat
deriving Repr, DecidableEq

/-- `PopupApp.__init__`: empty registry. -/
def initState : AppState := { calls := [], nextTimer := 1 }

/-- `CallWindow.update_timer_label`:
`mins, secs = divmod(max(seconds, 0), 60); f"{mins:02d}:{secs:02d}"`.
`pyFormat02` below models the `{:02d}` format spec. -/
def pyFormat02 (n : Nat) : String :=
  if n < 10 then "0" ++ Nat.repr n else Nat.repr n

def update_timer_label (seconds : Int) : String :=
  let clamped : Nat := (max seconds 0).toNat
  pyFormat02 (clamped / 60) ++ ":" ++ pyFormat02 (clamped % 60)

/-- `PopupApp._update_timer`: reads the registry, never writes it; returns the
GLib continue flag. -/
def update_timer (st : AppState) (now : Nat) (call_path : String) :
    List Effect × Bool :=
  match dget call_path st.calls with
  | none => ([], false)
  | some call =>
    if call.state ≠ "active" then ([], false)
    else
      match call.start_time with
      | none => ([], false)
      | some t0 =>
        let elapsed : Int := (now : Int) - (t0 : Int)
        ([Effect.windowSetTimerLabel call_path (update_timer_label elapsed)], true)

/-- `PopupApp._mark_active`. -/
def mark_active (st : AppState) (now : Nat) (call_path : String) :
    AppState × List Effect :=
  match dget call_path st.calls with
  | none => (st, [])
  | some call =>
    let newId := st.nextTimer
    let call' : CallData :=
      { call with state := "active", start_time := some now, timer_id := some newId }
    let cancelEffs : List Effect :=
      match call.timer_id with
      | some tid => [Effect.sourceRemove tid]
      | none => []
    let st' : AppState :=
      { calls := dset call_path call' st.calls, nextTimer := st.nextTimer + 1 }
    let updEffs := (update_timer st' now call_path).1
    (st', Effect.windowShowActive call_path :: cancelEffs
            ++ [Effect.timeoutAddSeconds 1 newId] ++ updEffs)

/-- `PopupApp._close_call`. -/
def close_call (st : AppState) (call_path : String) : AppState × List Effect :=
  match dget call_path st.calls with
  | none => (st, [])
  | some call =>
    let st' : AppState := { st with calls := dremove call_path st.calls }
    let cancelEffs : List Effect :=
      match call.timer_id with
      | some tid => [Effect.sourceRemove tid]
      | none => []
    (st', cancelEffs ++ [Effect.windowDestroy call_path,
                         Effect.logMsg ("Closed call UI for " ++ call_path)])

/-- `PopupApp._show_window`.  `caller_id or "Unknown"` coerces the empty
string (Python falsy) to `"Unknown"`, both for the window label
(`CallWindow.__init__`) and for the stored entry. -/
def show_window (st : AppState) (now : Nat)
    (call_path caller_id initial_state : String) : AppState × List Effect :=
  if (dget call_path st.calls).isSome then
    (st, [Effect.windowPresent call_path])
  else
    let callerText := if caller_id = "" then "Unknown" else caller_id
    let entry : CallData :=
      { caller_id := if caller_id = "" then "Unknown" else caller_id,
        state := initial_state, start_time := none, timer_id := none }
    let st' : AppState := { st with calls := dset call_path entry st.calls }
    if initial_state = "active" then
      let (st'', effs) := mark_active st' now call_path
      (st'', Effect.windowCreate call_path callerText :: effs)
    else
      (st', [Effect.windowCreate call_path callerText,
             Effect.windowShowIncoming call_path])

/-- `PopupApp.on_interfaces_added`.  `interfaces` maps interface names to
property dicts; `if not call_props:` is falsy both for a missing key and for
an empty dict. -/
def on_interfaces_added (st : AppState) (now : Nat) (path : String)
    (interfaces : List (String × List (String × String))) :
    AppState × List Effect :=
  match dget "org.pipewire.Telephony.Call1" interfaces with
  | none => (st, [])
  | some call_props =>
    if call_props = [] then (st, [])
    else
      let state := (dget "State" call_props).getD ""
      let caller_id := (dget "LineIdentification" call_props).getD "Unknown"
      let logEff := Effect.logMsg
        ("Incoming call: " ++ caller_id ++ " (state=" ++ state ++ ") path=" ++ path)
      if state = "incoming" then
        let (st', effs) := show_window st now path caller_id "incoming"
        (st', logEff :: effs)
      else
        (st, [logEff])

/-- `PopupApp.on_interfaces_removed`. -/
def on_interfaces_removed (st : AppState) (path : String)
    (interfaces : List String) : AppState × List Effect :=
  if "org.pipewire.Telephony.Call1" ∈ interfaces then
    let (st', effs) := close_call st path
    (st', Effect.logMsg ("Call removed: " ++ path) :: effs)
  else
    (st, [])

/-- `PopupApp.on_properties_changed`.  `changed_props.get("State")` yields
`None` when absent; `if not state:` also rejects the empty string, and
`if not call_path:` rejects both a missing `path` keyword and `""`. -/
def on_properties_changed (st : AppState) (now : Nat) (interface : String)
    (changed_props : List (String × String)) (invalidated : List String)
    (path : Option String) : AppState × List Effect :=
  let _ := invalidated
  if interface ≠ "org.pipewire.Telephony.Call1" then (st, [])
  else
    match dget "State" changed_props with
    | none => (st, [])
    | some state =>
      if state = "" then (st, [])
      else
        match path with
        | none => (st, [])
        | some call_path =>
          if call_path = "" then (st, [])
          else
            let logEff := Effect.logMsg
              ("State changed: " ++ call_path ++ " -> " ++ state)
            if state = "active" then
              let (st', effs) := mark_active st now call_path
              (st', logEff :: effs)
            else if state = "disconnected" then
              let (st', effs) := close_call st call_path
              (st', logEff :: effs)
            else
              (st, [logEff])

/-- `PopupApp.answer_call`: the remote round trip either succeeds
(`remote = none`) or raises an exception `some exc`, which is logged and
swallowed. -/
def answer_call (st : AppState) (call_path : String)
    (remote : Option String) : AppState × List Effect :=
  let pre := [Effect.logMsg ("Answering " ++ call_path), Effect.callAnswer call_path]
  match remote with
  | none => (st, pre)
  | some exc => (st, pre ++ [Effect.logMsg ("Answer failed: " ++ exc)])

/-- `PopupApp.hangup_call`. -/
def hangup_call (st : AppState) (call_path : String)
    (remote : Option String) : AppState × List Effect :=
  let pre := [Effect.logMsg ("Hanging up " ++ call_path), Effect.callHangup call_path]
  match remote with
  | none => (st, pre)
  | some exc => (st, pre ++ [Effect.logMsg ("Hangup failed: " ++ exc)])

/-- External stimuli dispatched by the GLib main loop: the three DBus signals,
a timer tick for a call path, and the two button callbacks (paired with the
outcome of their remote round trip). -/
inductive Event where
  | interfacesAdded (path : String) (interfaces : List (String × List (String × String)))
  | interfacesRemoved (path : String) (interfaces : List String)
  | propertiesChanged (interface : String) (changed_props : List (String × String))
      (invalidated : List String) (path : Option String)
  | tick (path : String)
  | clickAnswer (path : String) (remote : Option String)
  | clickHangup (path : String) (remote : Option String)
deriving Repr, DecidableEq

/-- One dispatch of the main loop at monotonic time `now`. -/
def step (st : AppState) (now : Nat) (e : Event) : AppState × List Effect :=
  match e with
  | Event.interfacesAdded p ifaces => on_interfaces_added st now p ifaces
  | Event.interfacesRemoved p ifaces => on_interfaces_removed st p ifaces
  | Event.propertiesChanged i ch inv pth => on_properties_changed st now i ch inv pth
  | Event.tick p => (st, (update_timer st now p).1)
  | Event.clickAnswer p r => answer_call st p r
  | Event.clickHangup p r => hangup_call st p r

/-- Run a timed event trace from a state. -/
def run (st : AppState) : List (Nat × Event) → AppState
  | [] => st
  | (now, e) :: rest => run (step st now e).1 rest

/-- Registry key list. -/
def keysOf (st : AppState) : List String := st.calls.map Prod.fst

/-- The registry invariant of the spec: at most one entry per call path, and
`timer_id` is non-null exactly on `"active"` entries. -/
def Inv (st : AppState) : Prop :=
  (keysOf st).Nodup ∧
    ∀ e ∈ st.calls, (e.2.timer_id ≠ none ↔ e.2.state = "active")

/-- The entry written by `_mark_active` over an existing entry. -/
def activated (c : CallData) (now tid : Nat) : CallData :=
  { c with state := "active", start_time := some now, timer_id := some tid }

/-- The fresh entry written by `_show_window`. -/
def freshEntry (caller_id initial_state : String) : CallData :=
  { caller_id := if caller_id = "" then "Unknown" else caller_id,
    state := initial_state, start_time := none, timer_id := none }

/-- Test fixture: the entry for a call that has been marked active. -/
def sampleActiveCall : CallData :=
  { caller_id := "Alice", state := "active", start_time := some 0, timer_id := some 1 }

/-- Test fixture: a registry tracking one active call. -/
def sampleActiveState : AppState :=
  { calls := [("/c1", sampleActiveCall)], nextTimer := 2 }

/-- Test fixture: the entry for a freshly appeared incoming call. -/
def sampleIncomingCall : CallData :=
  { caller_id := "Alice", state := "incoming", start_time := none, timer_id := none }

/-- Test fixture: a registry tracking one incoming call. -/
def sampleIncomingState : AppState :=
  { calls := [("/c1", sampleIncomingCall)], nextTimer := 1 }

/-! ### Association-list lemmas -/

theorem dget_dset_self (k : String) (v : α) (d : List (String × α)) :
    dget k (dset k v d) = some v := by
  induction d with
  | nil => simp [dget, dset]
  | cons hd tl ih =>
    obtain ⟨k', v'⟩ := hd
    by_cases h : k' = k
    · subst h; simp [dset, dget]
    · simp [dset, dget, h, ih]

theorem dget_dset_ne {k k' : String} (v : α) (d : List (String × α)) (h : k' ≠ k) :
    dget k' (dset k v d) = dget k' d := by
  induction d with
  | nil => simp [dget, dset, Ne.symm h]
  | cons hd tl ih =>
    obtain ⟨k'', v''⟩ := hd
    by_cases hk : k'' = k
    · subst hk
      simp [dset, dget, Ne.symm h]
    · simp only [dset, if_neg hk, dget]
      by_cases hk' : k'' = k'
      · simp [hk']
      · simp [hk', ih]

theorem dget_dremove_self (k : String) (d : List (String × α)) :
    dget k (dremove k d) = none := by
  induction d with
  | nil => simp [dget, dremove]
  | cons hd tl ih =>
    obtain ⟨k', v'⟩ := hd
    by_cases h : k' = k
    · simp [dremove, h, ih]
    · simp [dremove, dget, h, ih]

theorem dget_dremove_ne {k k' : String} (d : List (String × α)) (h : k' ≠ k) :
    dget k' (dremove k d) = dget k' d := by
  induction d with
  | nil => simp [dremove]
  | cons hd tl ih =>
    obtain ⟨k'', v''⟩ := hd
    by_cases hk : k'' = k
    · subst hk
      simp [dremove, dget, Ne.symm h, ih]
    · simp only [dremove, if_neg hk, dget]
      by_cases hk' : k'' = k'
      · simp [hk']
      · simp [hk', ih]

theorem dget_eq_none_iff {k : String} {d : List (String × α)} :
    dget k d = none ↔ k ∉ d.map Prod.fst := by
  induction d with
  | nil => simp [dget]
  | cons hd tl ih =>
    obtain ⟨k', v'⟩ := hd
    by_cases h : k' = k
    · subst h; simp [dget]
    · simp [dget, h, ih, Ne.symm h]

theorem dget_mem {k : String} {v : α} {d : List (String × α)}
    (h : dget k d = some v) : (k, v) ∈ d := by
  induction d with
  | nil => simp [dget] at h
  | cons hd tl ih =>
    obtain ⟨k', v'⟩ := hd
    by_cases hk : k' = k
    · subst hk
      simp [dget] at h
      simp [h]
    · simp [dget, hk] at h
      exact List.mem_cons_of_mem _ (ih h)

theorem dget_append_of_isSome {k : String} {v : α} {d d' : List (String × α)}
    (h : dget k d = some v) : dget k (d ++ d') = some v := by
  induction d with
  | nil => simp [dget] at h
  | cons hd tl ih =>
    obtain ⟨k', v'⟩ := hd
    by_cases hk : k' = k
    · subst hk
      simp [dget] at h ⊢
      exact h
    · simp [dget, hk] at h ⊢
      exact ih h

theorem dset_eq_append {k : String} {v : α} {d : List (String × α)}
    (h : dget k d = none) : dset k v d = d ++ [(k, v)] := by
  induction d with
  | nil => simp [dset]
  | cons hd tl ih =>
    obtain ⟨k', v'⟩ := hd
    by_cases hk : k' = k
    · subst hk; simp [dget] at h
    · simp [dget, hk] at h
      simp [dset, hk, ih h]

theorem keys_dset_of_isSome {k : String} {v : α} {d : List (String × α)}
    (h : (dget k d).isSome) : (dset k v d).map Prod.fst = d.map Prod.fst := by
  induction d with
  | nil => simp [dget] at h
  | cons hd tl ih =>
    obtain ⟨k', v'⟩ := hd
    by_cases hk : k' = k
    · subst hk; simp [dset]
    · simp [dget, hk] at h
      simp [dset, hk, ih h]

theorem mem_dset {e : String × α} {k : String} {v : α} {d : List (String × α)}
    (h : e ∈ dset k v d) : e = (k, v) ∨ e ∈ d := by
  induction d with
  | nil =>
    simp [dset] at h
    exact Or.inl h
  | cons hd tl ih =>
    obtain ⟨k', v'⟩ := hd
    by_cases hk : k' = k
    · subst hk
      simp [dset] at h
      rcases h with h | h
      · exact Or.inl h
      · exact Or.inr (List.mem_cons_of_mem _ h)
    · simp [dset, hk] at h
      rcases h with h | h
      · exact Or.inr (by simp [h])
      · rcases ih h with h' | h'
        · exact Or.inl h'
        · exact Or.inr (List.mem_cons_of_mem _ h')

theorem mem_dremove {e : String × α} {k : String} {d : List (String × α)}
    (h : e ∈ dremove k d) : e ∈ d := by
  induction d with
  | nil => simp [dremove] at h
  | cons hd tl ih =>
    obtain ⟨k', v'⟩ := hd
    by_cases hk : k' = k
    · simp [dremove, hk] at h
      exact List.mem_cons_of_mem _ (ih h)
    · simp [dremove, hk] at h
      rcases h with h | h
      · simp [h]
      · exact List.mem_cons_of_mem _ (ih h)

theorem nodup_keys_dset {k : String} {v : α} {d : List (String × α)}
    (h : (d.map Prod.fst).Nodup) : ((dset k v d).map Prod.fst).Nodup := by
  cases hk : dget k d with
  | some w =>
    rw [keys_dset_of_isSome (by simp [hk])]
    exact h
  | none =>
    rw [dset_eq_append hk]
    simp only [List.map_append, List.map_cons, List.map_nil]
    rw [List.nodup_append]
    refine ⟨h, List.nodup_singleton k, ?_⟩
    intro x hx hx'
    simp at hx'
    subst hx'
    exact dget_eq_none_iff.mp hk hx

/-! ### Unfolding lemmas for the handler branches -/

theorem mark_active_untracked {st : AppState} {p : String} (now : Nat)
    (h : dget p st.calls = none) : mark_active st now p = (st, []) := by
  simp [mark_active, h]

theorem mark_active_tracked {st : AppState} {p : String} {c : CallData} (now : Nat)
    (h : dget p st.calls = some c) :
    (mark_active st now p).1 =
      { calls := dset p (activated c now st.nextTimer) st.calls,
        nextTimer := st.nextTimer + 1 } := by
  simp [mark_active, h, activated]

theorem mark_active_effs_none {st : AppState} {p : String} {c : CallData} (now : Nat)
    (h : dget p st.calls = some c) (ht : c.timer_id = none) :
    (mark_active st now p).2 =
      [Effect.windowShowActive p, Effect.timeoutAddSeconds 1 st.nextTimer,
       Effect.windowSetTimerLabel p (update_timer_label 0)] := by
  simp [mark_active, h, ht, update_timer, dget_dset_self]

theorem mark_active_effs_some {st : AppState} {p : String} {c : CallData}
    (now : Nat) {t : Nat} (h : dget p st.calls = some c) (ht : c.timer_id = some t) :
    (mark_active st now p).2 =
      [Effect.windowShowActive p, Effect.sourceRemove t,
       Effect.timeoutAddSeconds 1 st.nextTimer,
       Effect.windowSetTimerLabel p (update_timer_label 0)] := by
  simp [mark_active, h, ht, update_timer, dget_dset_self]

theorem close_call_untracked {st : AppState} {p : String}
    (h : dget p st.calls = none) : close_call st p = (st, []) := by
  simp [close_call, h]

theorem close_call_tracked {st : AppState} {p : String} {c : CallData}
    (h : dget p st.calls = some c) :
    close_call st p =
      ({ st with calls := dremove p st.calls },
       (match c.timer_id with
        | some tid => [Effect.sourceRemove tid]
        | none => []) ++
         [Effect.windowDestroy p, Effect.logMsg ("Closed call UI for " ++ p)]) := by
  simp [close_call, h]

theorem show_window_tracked {st : AppState} {p : String} (now : Nat)
    (cid ist : String) (h : (dget p st.calls).isSome) :
    show_window st now p cid ist = (st, [Effect.windowPresent p]) := by
  simp [show_window, h]

theorem show_window_incoming_untracked {st : AppState} {p : String} (now : Nat)
    (cid : String) (h : dget p st.calls = none) :
    show_window st now p cid "incoming" =
      ({ st with calls := st.calls ++ [(p, freshEntry cid "incoming")] },
       [Effect.windowCreate p (if cid = "" then "Unknown" else cid),
        Effect.windowShowIncoming p]) := by
  simp [show_window, h, dset_eq_append h, freshEntry]

theorem nodup_keys_dremove {k : String} {d : List (String × α)}
    (h : (d.map Prod.fst).Nodup) : ((dremove k d).map Prod.fst).Nodup := by
  induction d with
  | nil => simp [dremove]
  | cons hd tl ih =>
    obtain ⟨k', v'⟩ := hd
    simp only [List.map_cons, List.nodup_cons] at h
    by_cases hk : k' = k
    · simp [dremove, hk]
      exact ih h.2
    · simp only [dremove, if_neg hk, List.map_cons, List.nodup_cons]
      refine ⟨fun hmem => ?_, ih h.2⟩
      rcases List.mem_map.mp hmem with ⟨e, he, hfst⟩
      exact h.1 (List.mem_map.mpr ⟨e, mem_dremove he, hfst⟩)

theorem oia_no_call1 {st : AppState} {now : Nat} {p : String}
    {ifaces : List (String × List (String × String))}
    (h : dget "org.pipewire.Telephony.Call1" ifaces = none) :
    on_interfaces_added st now p ifaces = (st, []) := by
  simp [on_interfaces_added, h]

theorem oia_empty_props {st : AppState} {now : Nat} {p : String}
    {ifaces : List (String × List (String × String))}
    (h : dget "org.pipewire.Telephony.Call1" ifaces = some []) :
    on_interfaces_added st now p ifaces = (st, []) := by
  simp [on_interfaces_added, h]

theorem oia_not_incoming {st : AppState} {now : Nat} {p : String}
    {ifaces : List (String × List (String × String))}
    {props : List (String × String)}
    (h : dget "org.pipewire.Telephony.Call1" ifaces = some props)
    (hne : props ≠ []) (hs : (dget "State" props).getD "" ≠ "incoming") :
    on_interfaces_added st now p ifaces =
      (st, [Effect.logMsg ("Incoming call: " ++
         (dget "LineIdentification" props).getD "Unknown" ++ " (state=" ++
         (dget "State" props).getD "" ++ ") path=" ++ p)]) := by
  simp [on_interfaces_added, h, hne, hs]

theorem oia_incoming {st : AppState} {now : Nat} {p : String}
    {ifaces : List (String × List (String × String))}
    {props : List (String × String)}
    (h : dget "org.pipewire.Telephony.Call1" ifaces = some props)
    (hne : props ≠ []) (hs : (dget "State" props).getD "" = "incoming") :
    on_interfaces_added st now p ifaces =
      ((show_window st now p ((dget "LineIdentification" props).getD "Unknown") "incoming").1,
       Effect.logMsg ("Incoming call: " ++
           (dget "LineIdentification" props).getD "Unknown" ++ " (state=" ++
           (dget "State" props).getD "" ++ ") path=" ++ p)
         :: (show_window st now p ((dget "LineIdentification" props).getD "Unknown") "incoming").2) := by
  rcases hsw : show_window st now p ((dget "LineIdentification" props).getD "Unknown") "incoming"
    with ⟨st', effs⟩
  simp [on_interfaces_added, h, hne, hs, hsw]

theorem oir_no_call1 {st : AppState} {p : String} {ifaces : List String}
    (h : "org.pipewire.Telephony.Call1" ∉ ifaces) :
    on_interfaces_removed st p ifaces = (st, []) := by
  simp [on_interfaces_removed, h]

theorem oir_call1 {st : AppState} {p : String} {ifaces : List String}
    (h : "org.pipewire.Telephony.Call1" ∈ ifaces) :
    on_interfaces_removed st p ifaces =
      ((close_call st p).1,
       Effect.logMsg ("Call removed: " ++ p) :: (close_call st p).2) := by
  rcases hcc : close_call st p with ⟨st', effs⟩
  simp [on_interfaces_removed, h, hcc]

theorem opc_wrong_iface {st : AppState} {now : Nat} {interface : String}
    {ch : List (String × String)} {inv : List String} {pth : Option String}
    (h : interface ≠ "org.pipewire.Telephony.Call1") :
    on_properties_changed st now interface ch inv pth = (st, []) := by
  simp [on_properties_changed, h]

theorem opc_no_state {st : AppState} {now : Nat} {interface : String}
    {ch : List (String × String)} {inv : List String} {pth : Option String}
    (h : dget "State" ch = none) :
    on_properties_changed st now interface ch inv pth = (st, []) := by
  by_cases hi : interface = "org.pipewire.Telephony.Call1"
  · simp [on_properties_changed, hi, h]
  · exact opc_wrong_iface hi

theorem opc_empty_state {st : AppState} {now : Nat} {interface : String}
    {ch : List (String × String)} {inv : List String} {pth : Option String}
    (h : dget "State" ch = some "") :
    on_properties_changed st now interface ch inv pth = (st, []) := by
  by_cases hi : interface = "org.pipewire.Telephony.Call1"
  · simp [on_properties_changed, hi, h]
  · exact opc_wrong_iface hi

theorem opc_no_path {st : AppState} {now : Nat} {interface : String}
    {ch : List (String × String)} {inv : List String} :
    on_properties_changed st now interface ch inv none = (st, []) := by
  by_cases hi : interface = "org.pipewire.Telephony.Call1"
  · cases hs : dget "State" ch with
    | none => exact opc_no_state hs
    | some s =>
      by_cases hse : s = ""
      · subst hse; exact opc_empty_state hs
      · simp [on_properties_changed, hi, hs, hse]
  · exact opc_wrong_iface hi

theorem opc_empty_path {st : AppState} {now : Nat} {interface : String}
    {ch : List (String × String)} {inv : List String} :
    on_properties_changed st now interface ch inv (some "") = (st, []) := by
  by_cases hi : interface = "org.pipewire.Telephony.Call1"
  · cases hs : dget "State" ch with
    | none => exact opc_no_state hs
    | some s =>
      by_cases hse : s = ""
      · subst hse; exact opc_empty_state hs
      · simp [on_properties_changed, hi, hs, hse]
  · exact opc_wrong_iface hi

theorem opc_active {st : AppState} {now : Nat} {ch : List (String × String)}
    {inv : List String} {p : String}
    (h : dget "State" ch = some "active") (hp : p ≠ "") :
    on_properties_changed st now "org.pipewire.Telephony.Call1" ch inv (some p) =
      ((mark_active st now p).1,
       Effect.logMsg ("State changed: " ++ p ++ " -> " ++ "active")
         :: (mark_active st now p).2) := by
  rcases hma : mark_active st now p with ⟨st', effs⟩
  simp [on_properties_changed, h, hp, hma]

theorem opc_disconnected {st : AppState} {now : Nat} {ch : List (String × String)}
    {inv : List String} {p : String}
    (h : dget "State" ch = some "disconnected") (hp : p ≠ "") :
    on_properties_changed st now "org.pipewire.Telephony.Call1" ch inv (some p) =
      ((close_call st p).1,
       Effect.logMsg ("State changed: " ++ p ++ " -> " ++ "disconnected")
         :: (close_call st p).2) := by
  rcases hcc : close_call st p with ⟨st', effs⟩
  simp [on_properties_changed, h, hp, hcc]

theorem opc_other_state {st : AppState} {now : Nat} {ch : List (String × String)}
    {inv : List String} {p s : String}
    (h : dget "State" ch = some s) (hs0 : s ≠ "") (hsa : s ≠ "active")
    (hsd : s ≠ "disconnected") (hp : p ≠ "") :
    on_properties_changed st now "org.pipewire.Telephony.Call1" ch inv (some p) =
      (st, [Effect.logMsg ("State changed: " ++ p ++ " -> " ++ s)]) := by
  simp [on_properties_changed, h, hs0, hsa, hsd, hp]

/-! ### Classification of a single dispatch -/

/-- One `step` either leaves the registry untouched, appends one fresh
incoming entry, activates one tracked entry in place, or removes one tracked
entry; activation and removal happen only for the events the state machine
names. -/
theorem step_calls_cases (st : AppState) (now : Nat) (ev : Event) :
    (step st now ev).1.calls = st.calls
    ∨ (∃ p cid, dget p st.calls = none ∧
        (step st now ev).1.calls = st.calls ++ [(p, freshEntry cid "incoming")])
    ∨ (∃ p c ch inv,
        ev = Event.propertiesChanged "org.pipewire.Telephony.Call1" ch inv (some p) ∧
        dget "State" ch = some "active" ∧ dget p st.calls = some c ∧
        (step st now ev).1.calls = dset p (activated c now st.nextTimer) st.calls)
    ∨ (∃ p c, dget p st.calls = some c ∧
        (step st now ev).1.calls = dremove p st.calls ∧
        ((∃ ifaces, ev = Event.interfacesRemoved p ifaces ∧
            "org.pipewire.Telephony.Call1" ∈ ifaces) ∨
         (∃ ch inv,
            ev = Event.propertiesChanged "org.pipewire.Telephony.Call1" ch inv (some p) ∧
            dget "State" ch = some "disconnected"))) := by
  cases ev with
  | interfacesAdded p ifaces =>
    cases h1 : dget "org.pipewire.Telephony.Call1" ifaces with
    | none => exact Or.inl (by simp [step, oia_no_call1 h1])
    | some props =>
      by_cases hne : props = []
      · subst hne
        exact Or.inl (by simp [step, oia_empty_props h1])
      · by_cases hs : (dget "State" props).getD "" = "incoming"
        · cases htr : dget p st.calls with
          | some c =>
            refine Or.inl ?_
            have hsw := show_window_tracked now
              ((dget "LineIdentification" props).getD "Unknown") "incoming"
              (by rw [htr]; rfl)
            simp [step, oia_incoming h1 hne hs, hsw]
          | none =>
            refine Or.inr (Or.inl ⟨p, (dget "LineIdentification" props).getD "Unknown",
              htr, ?_⟩)
            simp [step, oia_incoming h1 hne hs,
              show_window_incoming_untracked now _ htr]
        · exact Or.inl (by simp [step, oia_not_incoming h1 hne hs])
  | interfacesRemoved p ifaces =>
    by_cases hmem : "org.pipewire.Telephony.Call1" ∈ ifaces
    · cases htr : dget p st.calls with
      | none =>
        exact Or.inl (by simp [step, oir_call1 hmem, close_call_untracked htr])
      | some c =>
        refine Or.inr (Or.inr (Or.inr ⟨p, c, htr, ?_, Or.inl ⟨ifaces, rfl, hmem⟩⟩))
        simp [step, oir_call1 hmem, close_call_tracked htr]
    · exact Or.inl (by simp [step, oir_no_call1 hmem])
  | propertiesChanged iface ch inv pth =>
    by_cases hi : iface = "org.pipewire.Telephony.Call1"
    · subst hi
      cases hs : dget "State" ch with
      | none => exact Or.inl (by simp [step, opc_no_state hs])
      | some s =>
        by_cases hs0 : s = ""
        · subst hs0
          exact Or.inl (by simp [step, opc_empty_state hs])
        · cases pth with
          | none => exact Or.inl (by simp [step, opc_no_path])
          | some p =>
            by_cases hp : p = ""
            · subst hp
              exact Or.inl (by simp [step, opc_empty_path])
            · by_cases hsa : s = "active"
              · subst hsa
                cases htr : dget p st.calls with
                | none =>
                  exact Or.inl (by simp [step, opc_active hs hp,
                    mark_active_untracked now htr])
                | some c =>
                  refine Or.inr (Or.inr (Or.inl ⟨p, c, ch, inv, rfl, hs, htr, ?_⟩))
                  simp [step, opc_active hs hp, mark_active_tracked now htr]
              · by_cases hsd : s = "disconnected"
                · subst hsd
                  cases htr : dget p st.calls with
                  | none =>
                    exact Or.inl (by simp [step, opc_disconnected hs hp,
                      close_call_untracked htr])
                  | some c =>
                    refine Or.inr (Or.inr (Or.inr ⟨p, c, htr, ?_,
                      Or.inr ⟨ch, inv, rfl, hs⟩⟩))
                    simp [step, opc_disconnected hs hp, close_call_tracked htr]
                · exact Or.inl (by simp [step, opc_other_state hs hs0 hsa hsd hp])
    · exact Or.inl (by simp [step, opc_wrong_iface hi])
  | tick p => exact Or.inl rfl
  | clickAnswer p r => exact Or.inl (by cases r <;> simp [step, answer_call])
  | clickHangup p r => exact Or.inl (by cases r <;> simp [step, hangup_call])

/-- The caller id of a freshly created entry is never empty. -/
theorem freshEntry_caller_ne (cid ist : String) :
    (freshEntry cid ist).caller_id ≠ "" := by
  by_cases h : cid = "" <;> simp [freshEntry, h]

/-- A `step` keeps the registry keys duplicate-free. -/
theorem step_preserves_nodup (st : AppState) (now : Nat) (ev : Event)
    (h : (keysOf st).Nodup) : (keysOf (step st now ev).1).Nodup := by
  rcases step_calls_cases st now ev with hc | ⟨p, cid, hget, hc⟩ |
    ⟨p, c, ch, inv, _, _, _, hc⟩ | ⟨p, c, _, hc, _⟩ <;> unfold keysOf at *
  · rw [hc]; exact h
  · rw [hc]
    simp only [List.map_append, List.map_cons, List.map_nil]
    rw [List.nodup_append]
    refine ⟨h, List.nodup_singleton p, ?_⟩
    intro x hx hx'
    simp at hx'
    subst hx'
    exact dget_eq_none_iff.mp hget hx
  · rw [hc]; exact nodup_keys_dset h
  · rw [hc]; exact nodup_keys_dremove h

/-- A `step` only produces entries that were already there, freshly created
incoming entries, or activations of existing entries. -/
theorem step_entries (st : AppState) (now : Nat) (ev : Event)
    (P : CallData → Prop)
    (hP : ∀ e ∈ st.calls, P e.2)
    (hInc : ∀ cid, P (freshEntry cid "incoming"))
    (hAct : ∀ c, P c → P (activated c now st.nextTimer)) :
    ∀ e ∈ (step st now ev).1.calls, P e.2 := by
  rcases step_calls_cases st now ev with hc | ⟨p, cid, hget, hc⟩ |
    ⟨p, c, ch, inv, _, _, hgc, hc⟩ | ⟨p, c, _, hc, _⟩ <;> rw [hc] <;> intro e he
  · exact hP e he
  · rcases List.mem_append.mp he with h | h
    · exact hP e h
    · simp at h
      rw [h]
      exact hInc cid
  · rcases mem_dset he with h | h
    · rw [h]
      exact hAct c (hP _ (dget_mem hgc))
    · exact hP e h
  · exact hP e (mem_dremove he)

/-- Entry-wise predicates closed under creation and activation hold along
every run. -/
theorem run_entries (P : CallData → Prop)
    (hInc : ∀ cid, P (freshEntry cid "incoming"))
    (hAct : ∀ c now tid, P c → P (activated c now tid)) :
    ∀ (tr : List (Nat × Event)) (st : AppState),
      (∀ e ∈ st.calls, P e.2) → ∀ e ∈ (run st tr).calls, P e.2 := by
  intro tr
  induction tr with
  | nil => intro st h; simpa [run] using h
  | cons hd tl ih =>
    intro st h
    obtain ⟨now, ev⟩ := hd
    exact ih _ (step_entries st now ev P h hInc (fun c => hAct c now st.nextTimer))

/-! ### Claims -/

/-- C1: the registry invariant — at most one registry entry per call
identifier, and an entry's timer handle is non-null iff its state is Active —
holds initially and is preserved by every operation (`on_call_appeared`,
`on_state_changed`, `on_call_removed`, `tick`, and the button callbacks). -/
theorem C1_registry_invariant :
    Inv initState ∧
      ∀ (st : AppState) (now : Nat) (ev : Event), Inv st → Inv (step st now ev).1 := by
  constructor
  · exact ⟨by simp [keysOf, initState], by intro e he; simp [initState] at he⟩
  · intro st now ev h
    refine ⟨step_preserves_nodup st now ev h.1, ?_⟩
    refine step_entries st now ev
      (fun c => c.timer_id ≠ none ↔ c.state = "active") h.2 ?_ ?_
    · intro cid
      simp [freshEntry]
    · intro c _
      simp [activated]

/-- Witness for C1: the invariant after dispatching a concrete incoming-call
notification from the initial state. -/
theorem C1_registry_invariant_witness :
    Inv (step initState 0 (Event.interfacesAdded "/c1"
      [("org.pipewire.Telephony.Call1",
        [("State", "incoming"), ("LineIdentification", "Alice")])])).1 :=
  C1_registry_invariant.2 initState 0 _
    ⟨by simp [keysOf, initState], by intro e he; simp [initState] at he⟩

/-- C2: the per-call state machine — an Active entry stays Active until it is
removed, an entry disappears only through a removal notification or a
disconnect property change, and no reachable registry entry is ever in any
state other than Incoming or Active (in particular no Ended entry is
retained). -/
theorem C2_state_machine :
    (∀ (st : AppState) (now : Nat) (ev : Event) (p : String) (c : CallData),
       dget p st.calls = some c → c.state = "active" →
       dget p (step st now ev).1.calls = none ∨
         ∃ c', dget p (step st now ev).1.calls = some c' ∧ c'.state = "active")
    ∧ (∀ (st : AppState) (now : Nat) (ev : Event) (p : String) (c : CallData),
       dget p st.calls = some c →
       dget p (step st now ev).1.calls = none →
       (∃ ifaces, ev = Event.interfacesRemoved p ifaces ∧
          "org.pipewire.Telephony.Call1" ∈ ifaces)
       ∨ (∃ ch inv,
          ev = Event.propertiesChanged "org.pipewire.Telephony.Call1" ch inv (some p)
            ∧ dget "State" ch = some "disconnected"))
    ∧ (∀ (tr : List (Nat × Event)) (p : String) (c : CallData),
       dget p (run initState tr).calls = some c →
       c.state = "incoming" ∨ c.state = "active") := by
  refine ⟨?_, ?_, ?_⟩
  · intro st now ev p c hget hact
    rcases step_calls_cases st now ev with hc | ⟨q, cid, hq, hc⟩ |
      ⟨q, c', ch, inv, _, _, hgc, hc⟩ | ⟨q, c', hgc, hc, _⟩
    · exact Or.inr ⟨c, by rw [hc, hget], hact⟩
    · exact Or.inr ⟨c, by rw [hc]; exact dget_append_of_isSome hget, hact⟩
    · by_cases hpq : p = q
      · subst hpq
        exact Or.inr ⟨activated c' now st.nextTimer,
          by rw [hc]; exact dget_dset_self _ _ _, by simp [activated]⟩
      · exact Or.inr ⟨c, by rw [hc, dget_dset_ne _ _ hpq, hget], hact⟩
    · by_cases hpq : p = q
      · subst hpq
        exact Or.inl (by rw [hc]; exact dget_dremove_self _ _)
      · exact Or.inr ⟨c, by rw [hc, dget_dremove_ne _ hpq, hget], hact⟩
  · intro st now ev p c hget hafter
    rcases step_calls_cases st now ev with hc | ⟨q, cid, hq, hc⟩ |
      ⟨q, c', ch, inv, hev, hst, hgc, hc⟩ | ⟨q, c', hgc, hc, hshape⟩
    · rw [hc, hget] at hafter
      exact absurd hafter (by simp)
    · rw [hc, dget_append_of_isSome hget] at hafter
      exact absurd hafter (by simp)
    · by_cases hpq : p = q
      · subst hpq
        rw [hc, dget_dset_self] at hafter
        exact absurd hafter (by simp)
      · rw [hc, dget_dset_ne _ _ hpq, hget] at hafter
        exact absurd hafter (by simp)
    · by_cases hpq : p = q
      · subst hpq
        exact hshape
      · rw [hc, dget_dremove_ne _ hpq, hget] at hafter
        exact absurd hafter (by simp)
  · intro tr p c hget
    have h := run_entries (fun c => c.state = "incoming" ∨ c.state = "active")
      (fun cid => Or.inl rfl) (fun c now tid _ => Or.inr rfl)
      tr initState (by intro e he; simp [initState] at he) (p, c) (dget_mem hget)
    exact h

/-- Witness for C2: all three parts at concrete inputs — a tick on an active
call keeps it active, removing it names a removal event, and the one-event
trace that created an incoming call has no retained Ended entry. -/
theorem C2_state_machine_witness :
    (dget "/c1" (step sampleActiveState 5 (Event.tick "/c1")).1.calls = none ∨
      ∃ c', dget "/c1" (step sampleActiveState 5 (Event.tick "/c1")).1.calls = some c' ∧
        c'.state = "active")
    ∧ ((∃ ifaces,
          Event.interfacesRemoved "/c1" ["org.pipewire.Telephony.Call1"]
            = Event.interfacesRemoved "/c1" ifaces ∧
          "org.pipewire.Telephony.Call1" ∈ ifaces)
       ∨ (∃ ch inv,
          Event.interfacesRemoved "/c1" ["org.pipewire.Telephony.Call1"]
            = Event.propertiesChanged "org.pipewire.Telephony.Call1" ch inv (some "/c1")
            ∧ dget "State" ch = some "disconnected"))
    ∧ ((freshEntry "Alice" "incoming").state = "incoming"
        ∨ (freshEntry "Alice" "incoming").state = "active") :=
  ⟨C2_state_machine.1 sampleActiveState 5 (Event.tick "/c1") "/c1" sampleActiveCall
      (by decide) (by decide),
   C2_state_machine.2.1 sampleActiveState 5
      (Event.interfacesRemoved "/c1" ["org.pipewire.Telephony.Call1"]) "/c1"
      sampleActiveCall (by decide) (by decide),
   C2_state_machine.2.2
      [(0, Event.interfacesAdded "/c1"
        [("org.pipewire.Telephony.Call1",
          [("State", "incoming"), ("LineIdentification", "Alice")])])]
      "/c1" (freshEntry "Alice" "incoming") (by decide)⟩

/-- C3 counterexample: a second InterfacesAdded for an already tracked call
whose well-formed Call1 payload reports state `"active"` does NOT re-present
the call's surface — `on_interfaces_added` tests `state == "incoming"` before
ever reaching `_show_window`, so the claim's "re-presents ... regardless of
reported_state" fails (the registry is still left unchanged). -/
theorem C3_counterexample :
    (dget "/c1" sampleIncomingState.calls).isSome
    ∧ dget "org.pipewire.Telephony.Call1"
        [("org.pipewire.Telephony.Call1", [("State", "active")])]
        = some [("State", "active")]
    ∧ (on_interfaces_added sampleIncomingState 5 "/c1"
        [("org.pipewire.Telephony.Call1", [("State", "active")])]).1
        = sampleIncomingState
    ∧ Effect.windowPresent "/c1" ∉
        (on_interfaces_added sampleIncomingState 5 "/c1"
          [("org.pipewire.Telephony.Call1", [("State", "active")])]).2 := by
  refine ⟨by decide, by decide, by decide, by decide⟩

/-- C3 (amended): for a well-formed Call1 payload, `on_interfaces_added`
re-presents the surface of an already tracked call only when the reported
state is `"incoming"` (leaving the registry unchanged); for a tracked call
with any other reported state it leaves the registry unchanged and does not
re-present; for an untracked call with reported state `"incoming"` it appends
exactly one new entry in state Incoming and shows an incoming-call surface;
for an untracked call with any other reported state it creates no entry. -/
theorem C3_on_call_appeared_contract :
    ∀ (st : AppState) (now : Nat) (p : String)
      (ifaces : List (String × List (String × String)))
      (props : List (String × String)),
      dget "org.pipewire.Telephony.Call1" ifaces = some props → props ≠ [] →
      (((dget "State" props).getD "" = "incoming" → (dget p st.calls).isSome →
          (on_interfaces_added st now p ifaces).1 = st ∧
          Effect.windowPresent p ∈ (on_interfaces_added st now p ifaces).2)
       ∧ ((dget "State" props).getD "" ≠ "incoming" →
          (on_interfaces_added st now p ifaces).1 = st ∧
          Effect.windowPresent p ∉ (on_interfaces_added st now p ifaces).2)
       ∧ ((dget "State" props).getD "" = "incoming" → dget p st.calls = none →
          (on_interfaces_added st now p ifaces).1.calls
            = st.calls ++ [(p, freshEntry
                ((dget "LineIdentification" props).getD "Unknown") "incoming")] ∧
          Effect.windowShowIncoming p ∈ (on_interfaces_added st now p ifaces).2)) := by
  intro st now p ifaces props h hne
  refine ⟨?_, ?_, ?_⟩
  · intro hs htr
    have hsw := show_window_tracked now
      ((dget "LineIdentification" props).getD "Unknown") "incoming" htr
    rw [oia_incoming h hne hs, hsw]
    simp
  · intro hs
    rw [oia_not_incoming h hne hs]
    simp
  · intro hs htr
    have hsw := show_window_incoming_untracked now
      ((dget "LineIdentification" props).getD "Unknown") htr
    rw [oia_incoming h hne hs, hsw]
    simp

/-- Witness for C3 (amended): a concrete untracked incoming call is appended
to the registry and its incoming surface shown. -/
theorem C3_on_call_appeared_contract_witness :
    (on_interfaces_added initState 0 "/c1"
        [("org.pipewire.Telephony.Call1",
          [("State", "incoming"), ("LineIdentification", "Alice")])]).1.calls
      = initState.calls ++ [("/c1", freshEntry
          ((dget "LineIdentification"
            [("State", "incoming"), ("LineIdentification", "Alice")]).getD "Unknown")
          "incoming")]
    ∧ Effect.windowShowIncoming "/c1" ∈
        (on_interfaces_added initState 0 "/c1"
          [("org.pipewire.Telephony.Call1",
            [("State", "incoming"), ("LineIdentification", "Alice")])]).2 :=
  (C3_on_call_appeared_contract initState 0 "/c1"
      [("org.pipewire.Telephony.Call1",
        [("State", "incoming"), ("LineIdentification", "Alice")])]
      [("State", "incoming"), ("LineIdentification", "Alice")]
      (by decide) (by decide)).2.2 (by decide) (by decide)

/-- C4: `_mark_active` on a tracked call records `start_time = now`, switches
the surface to active mode, cancels any pre-existing timer before starting
the new 1-second repeating tick (the exact effect lists show the
cancellation ordered before the single new `timeout_add_seconds`), and stores
the new timer handle; and `start_time` is modified by no event other than a
transition into Active. -/
theorem C4_mark_active :
    (∀ (st : AppState) (now : Nat) (p : String) (c : CallData),
       dget p st.calls = some c →
       dget p (mark_active st now p).1.calls = some (activated c now st.nextTimer)
       ∧ (activated c now st.nextTimer).start_time = some now
       ∧ (activated c now st.nextTimer).state = "active"
       ∧ (activated c now st.nextTimer).timer_id = some st.nextTimer
       ∧ Effect.windowShowActive p ∈ (mark_active st now p).2
       ∧ (∀ t, c.timer_id = some t →
           (mark_active st now p).2
             = [Effect.windowShowActive p, Effect.sourceRemove t,
                Effect.timeoutAddSeconds 1 st.nextTimer,
                Effect.windowSetTimerLabel p (update_timer_label 0)])
       ∧ (c.timer_id = none →
           (mark_active st now p).2
             = [Effect.windowShowActive p,
                Effect.timeoutAddSeconds 1 st.nextTimer,
                Effect.windowSetTimerLabel p (update_timer_label 0)]))
    ∧ (∀ (st : AppState) (now : Nat) (ev : Event) (p : String) (c : CallData),
        dget p st.calls = some c →
        (¬ ∃ ch inv,
            ev = Event.propertiesChanged "org.pipewire.Telephony.Call1" ch inv (some p)
              ∧ dget "State" ch = some "active") →
        ∀ c', dget p (step st now ev).1.calls = some c' →
          c'.start_time = c.start_time) := by
  constructor
  · intro st now p c hget
    refine ⟨?_, rfl, rfl, rfl, ?_, ?_, ?_⟩
    · rw [mark_active_tracked now hget]
      exact dget_dset_self _ _ _
    · cases ht : c.timer_id with
      | none => rw [mark_active_effs_none now hget ht]; simp
      | some t => rw [mark_active_effs_some now hget ht]; simp
    · intro t ht
      exact mark_active_effs_some now hget ht
    · intro ht
      exact mark_active_effs_none now hget ht
  · intro st now ev p c hget hnact c' hafter
    rcases step_calls_cases st now ev with hc | ⟨q, cid, hq, hc⟩ |
      ⟨q, c2, ch, inv, hev, hst, hgc, hc⟩ | ⟨q, c2, hgc, hc, _⟩
    · rw [hc, hget] at hafter
      cases Option.some.inj hafter
      rfl
    · rw [hc, dget_append_of_isSome hget] at hafter
      cases Option.some.inj hafter
      rfl
    · by_cases hpq : p = q
      · subst hpq
        exact absurd ⟨ch, inv, hev, hst⟩ hnact
      · rw [hc, dget_dset_ne _ _ hpq, hget] at hafter
        cases Option.some.inj hafter
        rfl
    · by_cases hpq : p = q
      · subst hpq
        rw [hc, dget_dremove_self] at hafter
        exact absurd hafter (by simp)
      · rw [hc, dget_dremove_ne _ hpq, hget] at hafter
        cases Option.some.inj hafter
        rfl

/-- Witness for C4: activating a concrete tracked incoming call, and a tick
leaving a concrete active call's `start_time` untouched. -/
theorem C4_mark_active_witness :
    dget "/c1" (mark_active sampleIncomingState 7 "/c1").1.calls
        = some (activated sampleIncomingCall 7 sampleIncomingState.nextTimer)
    ∧ (activated sampleIncomingCall 7 sampleIncomingState.nextTimer).start_time
        = some 7
    ∧ (mark_active sampleIncomingState 7 "/c1").2
        = [Effect.windowShowActive "/c1",
           Effect.timeoutAddSeconds 1 sampleIncomingState.nextTimer,
           Effect.windowSetTimerLabel "/c1" (update_timer_label 0)]
    ∧ sampleActiveCall.start_time = sampleActiveCall.start_time :=
  ⟨(C4_mark_active.1 sampleIncomingState 7 "/c1" sampleIncomingCall (by decide)).1,
   (C4_mark_active.1 sampleIncomingState 7 "/c1" sampleIncomingCall (by decide)).2.1,
   (C4_mark_active.1 sampleIncomingState 7 "/c1" sampleIncomingCall
     (by decide)).2.2.2.2.2.2 (by decide),
   C4_mark_active.2 sampleActiveState 5 (Event.tick "/c1") "/c1" sampleActiveCall
     (by decide) (by rintro ⟨ch, inv, h, -⟩; cases h) sampleActiveCall (by decide)⟩

/-- C5: `_close_call` on a tracked call cancels any running timer, destroys
the surface and removes the entry (other entries untouched); the removal
handler and a `"disconnected"` property change both perform exactly this
cleanup, leaving the registry without the identifier. -/
theorem C5_removal_cleanup :
    (∀ (st : AppState) (p : String) (c : CallData), dget p st.calls = some c →
       dget p (close_call st p).1.calls = none
       ∧ (∀ q, q ≠ p → dget q (close_call st p).1.calls = dget q st.calls)
       ∧ Effect.windowDestroy p ∈ (close_call st p).2
       ∧ (∀ t, c.timer_id = some t → Effect.sourceRemove t ∈ (close_call st p).2))
    ∧ (∀ (st : AppState) (p : String) (ifaces : List String),
        "org.pipewire.Telephony.Call1" ∈ ifaces →
        (on_interfaces_removed st p ifaces).1 = (close_call st p).1
        ∧ (on_interfaces_removed st p ifaces).2
            = Effect.logMsg ("Call removed: " ++ p) :: (close_call st p).2)
    ∧ (∀ (st : AppState) (now : Nat) (ch : List (String × String))
        (inv : List String) (p : String),
        dget "State" ch = some "disconnected" → p ≠ "" →
        (on_properties_changed st now "org.pipewire.Telephony.Call1" ch inv (some p)).1
            = (close_call st p).1
        ∧ (on_properties_changed st now "org.pipewire.Telephony.Call1" ch inv (some p)).2
            = Effect.logMsg ("State changed: " ++ p ++ " -> " ++ "disconnected")
                :: (close_call st p).2
        ∧ dget p (on_properties_changed st now "org.pipewire.Telephony.Call1"
            ch inv (some p)).1.calls = none) := by
  have hnone : ∀ (st : AppState) (p : String),
      dget p (close_call st p).1.calls = none := by
    intro st p
    cases hget : dget p st.calls with
    | none => rw [close_call_untracked hget]; exact hget
    | some c => rw [close_call_tracked hget]; exact dget_dremove_self _ _
  refine ⟨?_, ?_, ?_⟩
  · intro st p c hget
    rw [close_call_tracked hget]
    refine ⟨dget_dremove_self _ _, fun q hq => dget_dremove_ne _ hq, ?_, ?_⟩
    · cases ht : c.timer_id <;> simp [ht]
    · intro t ht
      simp [ht]
  · intro st p ifaces hmem
    rw [oir_call1 hmem]
    exact ⟨rfl, rfl⟩
  · intro st now ch inv p hs hp
    rw [opc_disconnected hs hp]
    exact ⟨rfl, rfl, hnone st p⟩

/-- Witness for C5: removing a concrete tracked active call. -/
theorem C5_removal_cleanup_witness :
    dget "/c1" (close_call sampleActiveState "/c1").1.calls = none
    ∧ Effect.windowDestroy "/c1" ∈ (close_call sampleActiveState "/c1").2
    ∧ Effect.sourceRemove 1 ∈ (close_call sampleActiveState "/c1").2
    ∧ (on_interfaces_removed sampleActiveState "/c1"
        ["org.pipewire.Telephony.Call1"]).1 = (close_call sampleActiveState "/c1").1
    ∧ dget "/c1" (on_properties_changed sampleActiveState 9
        "org.pipewire.Telephony.Call1" [("State", "disconnected")] []
        (some "/c1")).1.calls = none :=
  ⟨(C5_removal_cleanup.1 sampleActiveState "/c1" sampleActiveCall (by decide)).1,
   (C5_removal_cleanup.1 sampleActiveState "/c1" sampleActiveCall (by decide)).2.2.1,
   (C5_removal_cleanup.1 sampleActiveState "/c1" sampleActiveCall
     (by decide)).2.2.2 1 (by decide),
   (C5_removal_cleanup.2.1 sampleActiveState "/c1"
     ["org.pipewire.Telephony.Call1"] (by decide)).1,
   (C5_removal_cleanup.2.2 sampleActiveState 9 [("State", "disconnected")] []
     "/c1" (by decide) (by decide)).2.2⟩

/-- C6: property changes and removals for a never-tracked identifier leave
the registry unchanged, and notifications missing required fields (wrong
interface, missing or empty `State`, missing path, removal without the Call1
interface) are ignored entirely. -/
theorem C6_untracked_and_malformed_noop :
    (∀ (st : AppState) (now : Nat) (interface p : String)
       (ch : List (String × String)) (inv : List String),
       dget p st.calls = none →
       (on_properties_changed st now interface ch inv (some p)).1 = st)
    ∧ (∀ (st : AppState) (p : String) (ifaces : List String),
        dget p st.calls = none → (on_interfaces_removed st p ifaces).1 = st)
    ∧ (∀ (st : AppState) (now : Nat) (interface : String)
        (ch : List (String × String)) (inv : List String) (pth : Option String),
        interface ≠ "org.pipewire.Telephony.Call1" →
        on_properties_changed st now interface ch inv pth = (st, []))
    ∧ (∀ (st : AppState) (now : Nat) (interface : String)
        (ch : List (String × String)) (inv : List String) (pth : Option String),
        dget "State" ch = none ∨ dget "State" ch = some "" →
        on_properties_changed st now interface ch inv pth = (st, []))
    ∧ (∀ (st : AppState) (now : Nat) (interface : String)
        (ch : List (String × String)) (inv : List String),
        on_properties_changed st now interface ch inv none = (st, []))
    ∧ (∀ (st : AppState) (p : String) (ifaces : List String),
        "org.pipewire.Telephony.Call1" ∉ ifaces →
        on_interfaces_removed st p ifaces = (st, [])) := by
  refine ⟨?_, ?_, ?_, ?_, ?_, ?_⟩
  · intro st now interface p ch inv hun
    by_cases hi : interface = "org.pipewire.Telephony.Call1"
    · subst hi
      cases hs : dget "State" ch with
      | none => rw [opc_no_state hs]
      | some s =>
        by_cases hs0 : s = ""
        · subst hs0; rw [opc_empty_state hs]
        · by_cases hp : p = ""
          · subst hp; rw [opc_empty_path]
          · by_cases hsa : s = "active"
            · subst hsa
              rw [opc_active hs hp, mark_active_untracked now hun]
            · by_cases hsd : s = "disconnected"
              · subst hsd
                rw [opc_disconnected hs hp, close_call_untracked hun]
              · rw [opc_other_state hs hs0 hsa hsd hp]
    · rw [opc_wrong_iface hi]
  · intro st p ifaces hun
    by_cases hmem : "org.pipewire.Telephony.Call1" ∈ ifaces
    · rw [oir_call1 hmem, close_call_untracked hun]
    · rw [oir_no_call1 hmem]
  · intro st now interface ch inv pth hi
    exact opc_wrong_iface hi
  · intro st now interface ch inv pth hs
    rcases hs with hs | hs
    · exact opc_no_state hs
    · exact opc_empty_state hs
  · intro st now interface ch inv
    exact opc_no_path
  · intro st p ifaces hmem
    exact oir_no_call1 hmem

/-- Witness for C6: concrete untracked and malformed notifications from the
initial state. -/
theorem C6_untracked_and_malformed_noop_witness :
    (on_properties_changed initState 3 "org.pipewire.Telephony.Call1"
        [("State", "active")] [] (some "/ghost")).1 = initState
    ∧ (on_interfaces_removed initState "/ghost"
        ["org.pipewire.Telephony.Call1"]).1 = initState
    ∧ on_properties_changed initState 3 "org.freedesktop.DBus.Other"
        [("State", "active")] [] (some "/c1") = (initState, [])
    ∧ on_properties_changed initState 3 "org.pipewire.Telephony.Call1"
        [("Volume", "3")] [] (some "/c1") = (initState, [])
    ∧ on_properties_changed initState 3 "org.pipewire.Telephony.Call1"
        [("State", "active")] [] none = (initState, [])
    ∧ on_interfaces_removed initState "/c1" ["org.pipewire.Telephony.Modem1"]
        = (initState, []) :=
  ⟨C6_untracked_and_malformed_noop.1 initState 3 "org.pipewire.Telephony.Call1"
      "/ghost" [("State", "active")] [] (by decide),
   C6_untracked_and_malformed_noop.2.1 initState "/ghost"
      ["org.pipewire.Telephony.Call1"] (by decide),
   C6_untracked_and_malformed_noop.2.2.1 initState 3 "org.freedesktop.DBus.Other"
      [("State", "active")] [] (some "/c1") (by decide),
   C6_untracked_and_malformed_noop.2.2.2.1 initState 3
      "org.pipewire.Telephony.Call1" [("Volume", "3")] [] (some "/c1")
      (Or.inl (by decide)),
   C6_untracked_and_malformed_noop.2.2.2.2.1 initState 3
      "org.pipewire.Telephony.Call1" [("State", "active")] [],
   C6_untracked_and_malformed_noop.2.2.2.2.2 initState "/c1"
      ["org.pipewire.Telephony.Modem1"] (by decide)⟩

/-- C7: `_update_timer` returns the continue signal exactly when the call is
tracked, Active, and has a start time; otherwise it returns false with no
display update, and a tick never changes the registry; when it continues, the
rendered label is the mm:ss rendering of `now - start_time` floored at
zero. -/
theorem C7_tick_contract :
    ∀ (st : AppState) (now : Nat) (p : String),
      ((update_timer st now p).2 = true ↔
        ∃ c, dget p st.calls = some c ∧ c.state = "active" ∧ c.start_time.isSome)
      ∧ ((update_timer st now p).2 = false → (update_timer st now p).1 = [])
      ∧ (step st now (Event.tick p)).1 = st
      ∧ (∀ (c : CallData) (t0 : Nat), dget p st.calls = some c →
          c.state = "active" → c.start_time = some t0 →
          (update_timer st now p).1
            = [Effect.windowSetTimerLabel p
                (pyFormat02 ((max ((now : Int) - (t0 : Int)) 0).toNat / 60) ++ ":"
                  ++ pyFormat02 ((max ((now : Int) - (t0 : Int)) 0).toNat % 60))]) := by
  intro st now p
  cases hget : dget p st.calls with
  | none =>
    refine ⟨by simp [update_timer, hget], by intro _; simp [update_timer, hget],
      rfl, ?_⟩
    intro c t0 hc _ _
    exact Option.noConfusion hc
  | some c =>
    by_cases hst : c.state = "active"
    · cases hti : c.start_time with
      | none =>
        refine ⟨by simp [update_timer, hget, hst, hti],
          by intro _; simp [update_timer, hget, hst, hti], rfl, ?_⟩
        intro c' t0 hc' _ hti'
        obtain rfl := Option.some.inj hc'
        rw [hti] at hti'
        exact Option.noConfusion hti'
      | some t0 =>
        refine ⟨?_, ?_, rfl, ?_⟩
        · simp [update_timer, hget, hst, hti]
        · intro hfalse
          simp [update_timer, hget, hst, hti] at hfalse
        · intro c' t0' hc' _ hti'
          obtain rfl := Option.some.inj hc'
          rw [hti] at hti'
          obtain rfl := Option.some.inj hti'
          simp [update_timer, hget, hst, hti, update_timer_label]
    · refine ⟨?_, by intro _; simp [update_timer, hget, hst], rfl, ?_⟩
      · simp [update_timer, hget, hst]
      · intro c' t0 hc' hst' _
        obtain rfl := Option.some.inj hc'
        exact absurd hst' hst

/-- Witness for C7 at the worked example of the spec: tick at `t = 65` on a
call activated at `t = 0`. -/
theorem C7_tick_contract_witness :
    ((update_timer sampleActiveState 65 "/c1").2 = true ↔
      ∃ c, dget "/c1" sampleActiveState.calls = some c ∧ c.state = "active" ∧
        c.start_time.isSome)
    ∧ (step sampleActiveState 65 (Event.tick "/c1")).1 = sampleActiveState
    ∧ (update_timer sampleActiveState 65 "/c1").1
        = [Effect.windowSetTimerLabel "/c1"
            (pyFormat02 ((max ((65 : Nat) - ((0 : Nat) : Int)) 0).toNat / 60) ++ ":"
              ++ pyFormat02 ((max ((65 : Nat) - ((0 : Nat) : Int)) 0).toNat % 60))] :=
  ⟨(C7_tick_contract sampleActiveState 65 "/c1").1,
   (C7_tick_contract sampleActiveState 65 "/c1").2.2.1,
   (C7_tick_contract sampleActiveState 65 "/c1").2.2.2 sampleActiveCall 0
     (by decide) (by decide) (by decide)⟩

/-- C8: `answer_call` and `hangup_call` invoke exactly one remote action and,
whether the remote call succeeds or raises, leave the registry untouched; a
failure is logged and swallowed (the handlers are total and perform no
retry). -/
theorem C8_remote_actions :
    ∀ (st : AppState) (p exc : String),
      (answer_call st p none).1 = st ∧ (answer_call st p (some exc)).1 = st
      ∧ (hangup_call st p none).1 = st ∧ (hangup_call st p (some exc)).1 = st
      ∧ (answer_call st p none).2.count (Effect.callAnswer p) = 1
      ∧ (answer_call st p (some exc)).2.count (Effect.callAnswer p) = 1
      ∧ (hangup_call st p none).2.count (Effect.callHangup p) = 1
      ∧ (hangup_call st p (some exc)).2.count (Effect.callHangup p) = 1
      ∧ Effect.logMsg ("Answer failed: " ++ exc) ∈ (answer_call st p (some exc)).2
      ∧ Effect.logMsg ("Hangup failed: " ++ exc) ∈ (hangup_call st p (some exc)).2 := by
  intro st p exc
  refine ⟨rfl, rfl, rfl, rfl, ?_, ?_, ?_, ?_, ?_, ?_⟩ <;>
    simp [answer_call, hangup_call, List.count_cons, List.count_nil]

/-- C9: the timer display is mm:ss — minutes and seconds of the clamped
elapsed value, each zero-padded to two digits; 65 seconds renders as
`"01:05"`. -/
theorem C9_timer_format :
    (∀ s : Int, update_timer_label s
        = pyFormat02 ((max s 0).toNat / 60) ++ ":" ++ pyFormat02 ((max s 0).toNat % 60))
    ∧ (∀ n : Nat, n < 10 → pyFormat02 n = "0" ++ Nat.repr n)
    ∧ (∀ n : Nat, 10 ≤ n → pyFormat02 n = Nat.repr n)
    ∧ update_timer_label 65 = "01:05" := by
  refine ⟨fun s => rfl, ?_, ?_, by decide⟩
  · intro n h
    simp [pyFormat02, h]
  · intro n h
    simp [pyFormat02, Nat.not_lt.mpr h]

/-- Witness for C9: the padding characterization at 1 (padded) and 65 (not
padded). -/
theorem C9_timer_format_witness :
    pyFormat02 1 = "0" ++ Nat.repr 1 ∧ pyFormat02 65 = Nat.repr 65 :=
  ⟨C9_timer_format.2.1 1 (by decide), C9_timer_format.2.2.1 65 (by decide)⟩

/-- C10: no reachable registry entry ever has an empty `caller_id`, and an
appeared notification whose `LineIdentification` is absent or empty stores
and displays `"Unknown"` (the `or "Unknown"` coercions catch empty strings,
not just absent values). -/
theorem C10_caller_id_nonempty :
    (∀ (tr : List (Nat × Event)) (p : String) (c : CallData),
       dget p (run initState tr).calls = some c → c.caller_id ≠ "")
    ∧ (∀ (st : AppState) (now : Nat) (p : String)
        (ifaces : List (String × List (String × String)))
        (props : List (String × String)),
        dget "org.pipewire.Telephony.Call1" ifaces = some props → props ≠ [] →
        (dget "State" props).getD "" = "incoming" →
        dget p st.calls = none →
        (dget "LineIdentification" props = none ∨
          dget "LineIdentification" props = some "") →
        (∃ c, dget p (on_interfaces_added st now p ifaces).1.calls = some c
            ∧ c.caller_id = "Unknown" ∧ c.state = "incoming")
        ∧ Effect.windowCreate p "Unknown" ∈ (on_interfaces_added st now p ifaces).2) := by
  constructor
  · intro tr p c hget
    exact run_entries (fun c => c.caller_id ≠ "")
      (fun cid => freshEntry_caller_ne cid "incoming")
      (fun c now tid h => by simpa [activated] using h)
      tr initState (by intro e he; simp [initState] at he) (p, c) (dget_mem hget)
  · intro st now p ifaces props h hne hs htr hli
    have hsw := show_window_incoming_untracked now
      ((dget "LineIdentification" props).getD "Unknown") htr
    rw [oia_incoming h hne hs, hsw]
    have hcid : (if (dget "LineIdentification" props).getD "Unknown" = ""
        then "Unknown" else (dget "LineIdentification" props).getD "Unknown")
        = "Unknown" := by
      rcases hli with hli | hli <;> simp [hli]
    constructor
    · refine ⟨freshEntry ((dget "LineIdentification" props).getD "Unknown")
        "incoming", ?_, ?_, rfl⟩
      · simp only []
        rw [← dset_eq_append htr]
        exact dget_dset_self _ _ _
      · simpa [freshEntry] using hcid
    · simp [hcid]

/-- Witness for C10: the never-empty invariant on a concrete one-event trace,
and a concrete appeared notification carrying an empty `LineIdentification`. -/
theorem C10_caller_id_nonempty_witness :
    (freshEntry "Alice" "incoming").caller_id ≠ ""
    ∧ (∃ c, dget "/c1" (on_interfaces_added initState 0 "/c1"
          [("org.pipewire.Telephony.Call1",
            [("State", "incoming"), ("LineIdentification", "")])]).1.calls = some c
        ∧ c.caller_id = "Unknown" ∧ c.state = "incoming")
    ∧ Effect.windowCreate "/c1" "Unknown" ∈ (on_interfaces_added initState 0 "/c1"
          [("org.pipewire.Telephony.Call1",
            [("State", "incoming"), ("LineIdentification", "")])]).2 :=
  ⟨C10_caller_id_nonempty.1
      [(0, Event.interfacesAdded "/c1"
        [("org.pipewire.Telephony.Call1",
          [("State", "incoming"), ("LineIdentification", "Alice")])])]
      "/c1" (freshEntry "Alice" "incoming") (by decide),
   (C10_caller_id_nonempty.2 initState 0 "/c1"
      [("org.pipewire.Telephony.Call1",
        [("State", "incoming"), ("LineIdentification", "")])]
      [("State", "incoming"), ("LineIdentification", "")]
      (by decide) (by decide) (by decide) (by decide) (Or.inr (by decide))).1,
   (C10_caller_id_nonempty.2 initState 0 "/c1"
      [("org.pipewire.Telephony.Call1",
        [("State", "incoming"), ("LineIdentification", "")])]
      [("State", "incoming"), ("LineIdentification", "")]
      (by decide) (by decide) (by decide) (by decide) (Or.inr (by decide))).2⟩

end PhonePopup
